import Mathlib

/-!
Verification of the jeonse ("key-money trap") risk-diagnosis pipeline.

The development shallowly embeds the two Python modules of the repository
(src/app.py and src/main.py).  Python floats are embedded as rationals
(so the float literals 1.4, 0.70, 0.80 become the exact rationals
7/5, 7/10, 8/10), Python integers as ℤ, and `int(x)` — Python's
truncation toward zero — as `int_trunc` below.  Fallible remote calls
are embedded by passing the (already parsed, typed) response as an
explicit `Option`-structured value: `none` stands for any exception
raised during the HTTP call or during JSON decoding / field coercion,
which the source catches and folds into its sentinel returns.
-/

namespace RealEstate

/-- Truncation toward zero on rationals: the behaviour of Python's
`int()` applied to a float value (floor for non-negative arguments,
ceiling for negative ones). -/
def int_trunc (q : ℚ) : ℤ :=
  if 0 ≤ q then ⌊q⌋ else ⌈q⌉

/-- The three-tier risk judgment named by the spec: SAFE / CAUTION / DANGER. -/
inductive Tier
  | SAFE
  | CAUTION
  | DANGER
deriving DecidableEq, Repr

/-- The classification thresholds of the if/elif chain shared by both
implementations of `calculate_risk`: `< 70` SAFE, `≤ 80` CAUTION,
otherwise DANGER. -/
def tier (risk_percent : ℚ) : Tier :=
  if risk_percent < 70 then Tier.SAFE
  else if risk_percent ≤ 80 then Tier.CAUTION
  else Tier.DANGER

/-- Decodes the Korean judgment strings produced by the two
implementations of `calculate_risk` back to their tier (the two CAUTION
labels differ only in wording). -/
def tierOfJudgment (j : String) : Option Tier :=
  if j = "✅ 안전 (70% 미만)" then some Tier.SAFE
  else if j = "⚠️ 주의 (80% 이하 - 보증보험 필요)" then some Tier.CAUTION
  else if j = "⚠️ 주의 (80% 이하 - 보증보험 가입 고려)" then some Tier.CAUTION
  else if j = "❌ 위험 (80% 초과 - 깡통전세 가능성 높음)" then some Tier.DANGER
  else none

namespace App

/-- calculate_risk from src/app.py (lines 184-206): estimated market
price is `int(official_price * market_price_ratio)`, the risk percent
is `total_burden / estimated_market_price * 100` guarded by
`estimated_market_price > 0` (else 100.0), and the judgment string is
chosen by the `< 70` / `<= 80` if/elif chain. -/
def calculate_risk (official_price : ℤ) (market_price_ratio : ℚ)
    (jeonse_deposit : ℤ) (loan_amount : ℤ) : ℚ × String × ℤ :=
  let estimated_market_price : ℤ :=
    int_trunc ((official_price : ℚ) * market_price_ratio)
  let total_burden : ℤ := jeonse_deposit + loan_amount
  let risk_percent : ℚ :=
    if estimated_market_price > 0 then
      ((total_burden : ℚ) / (estimated_market_price : ℚ)) * 100
    else 100
  let judgment : String :=
    if risk_percent < 70 then "✅ 안전 (70% 미만)"
    else if risk_percent ≤ 80 then "⚠️ 주의 (80% 이하 - 보증보험 필요)"
    else "❌ 위험 (80% 초과 - 깡통전세 가능성 높음)"
  (risk_percent, judgment, estimated_market_price)

/-- calculate_safe_jeonse from src/app.py (lines 209-220).  The source's
constants MAX_SAFE_RATIO = 0.70 and MAX_WARNING_RATIO = 0.80 are inlined
as the exact rationals 7/10 and 8/10; note the source applies `int()` to
the whole expression `estimated_market_price * ratio - loan_amount`. -/
def calculate_safe_jeonse (estimated_market_price : ℤ)
    (loan_amount : ℤ) : ℤ × ℤ :=
  let max_safe_jeonse : ℤ :=
    int_trunc ((estimated_market_price : ℚ) * (7 / 10) - (loan_amount : ℚ))
  let max_warning_jeonse : ℤ :=
    int_trunc ((estimated_market_price : ℚ) * (8 / 10) - (loan_amount : ℚ))
  (max 0 max_safe_jeonse, max 0 max_warning_jeonse)

end App

namespace MainPy

/-- calculate_risk from src/main.py (lines 80-101): identical arithmetic
to the app.py version but the division-by-zero guard is written
`if estimated_market_price == 0` (sentinel first) and the CAUTION label
reads "보증보험 가입 고려". -/
def calculate_risk (official_price : ℤ) (market_price_ratio : ℚ)
    (jeonse_deposit : ℤ) (loan_amount : ℤ) : ℚ × String × ℤ :=
  let estimated_market_price : ℤ :=
    int_trunc ((official_price : ℚ) * market_price_ratio)
  let total_burden : ℤ := jeonse_deposit + loan_amount
  let risk_percent : ℚ :=
    if estimated_market_price = 0 then 100
    else ((total_burden : ℚ) / (estimated_market_price : ℚ)) * 100
  let judgment : String :=
    if risk_percent < 70 then "✅ 안전 (70% 미만)"
    else if risk_percent ≤ 80 then "⚠️ 주의 (80% 이하 - 보증보험 가입 고려)"
    else "❌ 위험 (80% 초과 - 깡통전세 가능성 높음)"
  (risk_percent, judgment, estimated_market_price)

end MainPy

/-- One row of the price registry's response list (src/app.py lines
172-176 reads the keys pblntfPc, prvuseAr, aphusNm with `.get`
defaults).  A `none` field stands for the key being absent; a value
whose string fails numeric coercion raises in the source and is
modelled by the whole body being `none` (see `PriceHttpResponse`). -/
structure PriceItem where
  pblntfPc : Option ℤ
  prvuseAr : Option ℚ
  aphusNm : Option String

/-- The nested object under the key apartHousingPrices; its key `field`
holds the record list (src/app.py line 170). -/
structure PriceAhp where
  field : Option (List PriceItem)

/-- The parsed JSON body of the price-registry response
(src/app.py line 169 reads the key apartHousingPrices with a default). -/
structure PriceBody where
  apartHousingPrices : Option PriceAhp

/-- The HTTP response of the price-registry call: its status code and
its JSON body; `json = none` models `response.json()` (or a later field
coercion) raising, which the source's `except` folds into the
communication-error sentinel. -/
structure PriceHttpResponse where
  status_code : ℕ
  json : Option PriceBody

namespace App

/-- The record list the source extracts:
`data.get("apartHousingPrices", {}).get("field", [])`
(absent keys default to the empty list). -/
def itemsOf (data : PriceBody) : List PriceItem :=
  match data.apartHousingPrices with
  | none => []
  | some ahp => ahp.field.getD []

/-- get_latest_official_price from src/app.py (lines 149-181).  The
argument is the outcome of the HTTP call: `none` when `requests.get`,
`response.json()` or a field coercion raised (the source's `except`
branch), otherwise the typed response.  The representative price is
`max(int(item.get("pblntfPc", 0)) for item in items)`, embedded as a
left fold of `max` started at the first item's value. -/
def get_latest_official_price (resp : Option PriceHttpResponse) :
    String × ℤ × ℚ :=
  match resp with
  | none => ("통신 오류", 0, 0)
  | some response =>
    if response.status_code = 200 then
      match response.json with
      | none => ("통신 오류", 0, 0)
      | some data =>
        match itemsOf data with
        | [] => ("데이터 없음", 0, 0)
        | item0 :: rest =>
          (item0.aphusNm.getD "주택명 미상",
           List.foldl (fun acc it => max acc (it.pblntfPc.getD 0))
             (item0.pblntfPc.getD 0) rest,
           item0.prvuseAr.getD 0)
    else ("데이터 없음", 0, 0)

end App

/-- One item of the geocoding search result list; the source reads its
key id (src/app.py line 141), absent modelled by `none`. -/
structure SearchItem where
  id : Option String

/-- The object under response.result; its key items holds the item
list (`none` models the key being absent, which raises KeyError in the
source and is caught). -/
structure SearchResult where
  items : Option (List SearchItem)

/-- The object under the top-level key response, with its status and
result fields (either may be absent). -/
structure SearchRespField where
  status : Option String
  result : Option SearchResult

/-- The parsed JSON body of the geocoding search response. -/
structure SearchData where
  response : Option SearchRespField

namespace App

/-- get_pnu_code from src/app.py (lines 115-146), applied to the
outcome of the HTTP call: `none` stands for `requests.get` or
`response.json()` raising (network failure, timeout, malformed body),
which the source's `except` folds into None.  An absent key on the
success path raises KeyError in the source and is likewise caught, so
each such absence maps to `none` here. -/
def get_pnu_code (resp : Option SearchData) : Option String :=
  match resp with
  | none => none
  | some data =>
    match data.response with
    | none => none
    | some r =>
      if r.status = some "OK" then
        match r.result with
        | none => none
        | some res =>
          match res.items with
          | none => none
          | some [] => none
          | some (item :: _) => item.id
      else none

/-- Groups a reversed digit list in threes, inserting the separator of
Python's format specifier "{:,}" (applied below to the already reversed
decimal string). -/
def commaGroupRev : List Char → List Char
  | a :: b :: c :: d :: rest => a :: b :: c :: ',' :: commaGroupRev (d :: rest)
  | l => l

/-- Thousands-grouped decimal rendering of a natural number, the
behaviour of Python's f-string format specifier "{:,}". -/
def pyThousands (n : ℕ) : String :=
  String.mk ((commaGroupRev (toString n).data.reverse).reverse)

/-- Python's str.strip(): removes leading and trailing whitespace. -/
def pyStrip (s : String) : String :=
  String.mk
    (((s.data.dropWhile Char.isWhitespace).reverse.dropWhile
      Char.isWhitespace).reverse)

/-- format_korean_money from src/app.py (lines 99-112): amounts ≤ 0
render as "0 원"; otherwise the eok (10^8) and man (10^4) components
are emitted when positive, the result is stripped and " 원" appended. -/
def format_korean_money (amount : ℤ) : String :=
  if amount ≤ 0 then "0 원"
  else
    let a : ℕ := amount.toNat
    let eok : ℕ := a / 100000000
    let remainder : ℕ := a % 100000000
    let man : ℕ := remainder / 10000
    let result : String :=
      (if eok > 0 then toString eok ++ "억 " else "") ++
      (if man > 0 then pyThousands man ++ "만" else "")
    pyStrip result ++ " 원"

end App

example : (App.calculate_risk 500000000 (7 / 5) 350000000 100000000).2.2 = 700000000 := by
  norm_num [App.calculate_risk, int_trunc]

example : (App.calculate_risk 500000000 (7 / 5) 350000000 100000000).1 = 450 / 7 := by
  norm_num [App.calculate_risk, int_trunc]

example : App.calculate_safe_jeonse 700000000 100000000 = (390000000, 460000000) := by
  norm_num [App.calculate_safe_jeonse, int_trunc]

example : tierOfJudgment "✅ 안전 (70% 미만)" = some Tier.SAFE := rfl

example :
    App.get_latest_official_price
      (some ⟨200, some ⟨some ⟨some [⟨some 100, some 50, some "A"⟩,
        ⟨some 500, some 80, some "B"⟩]⟩⟩⟩) = ("A", 500, 50) := rfl

example : App.get_latest_official_price none = ("통신 오류", 0, 0) := rfl

example : App.get_latest_official_price (some ⟨500, some ⟨some ⟨some [⟨some 1, some 1, some "A"⟩]⟩⟩⟩) = ("데이터 없음", 0, 0) := rfl

example :
    App.get_pnu_code
      (some ⟨some ⟨some "OK", some ⟨some [⟨some "1168010300101230000"⟩]⟩⟩⟩) =
      some "1168010300101230000" := rfl

example : App.get_pnu_code (some ⟨some ⟨some "NOT_FOUND", some ⟨some [⟨some "x"⟩]⟩⟩⟩) = none := rfl

example : App.format_korean_money 150000000 = "1억 5,000만 원" := by decide

example : App.format_korean_money 0 = "0 원" := rfl

example : App.format_korean_money (-5) = "0 원" := by decide

example : App.format_korean_money 9999 = " 원" := by decide

example : App.format_korean_money 2147480000 = "21억 4,748만 원" := by decide

example : App.format_korean_money 300000000 = "3억 원" := by decide

/-! General lemmas about the embedded primitives. -/

theorem ceil_nonpos_of_nonpos {q : ℚ} (h : q ≤ 0) : ⌈q⌉ ≤ 0 :=
  Int.ceil_le.mpr (by exact_mod_cast h)

theorem int_trunc_of_nonneg {q : ℚ} (h : 0 ≤ q) : int_trunc q = ⌊q⌋ :=
  if_pos h

theorem int_trunc_nonneg {q : ℚ} (h : 0 ≤ q) : 0 ≤ int_trunc q := by
  rw [int_trunc_of_nonneg h]
  exact Int.floor_nonneg.mpr h

theorem int_trunc_mono {a b : ℚ} (hab : a ≤ b) : int_trunc a ≤ int_trunc b := by
  by_cases ha : 0 ≤ a
  · rw [int_trunc, if_pos ha, int_trunc, if_pos (ha.trans hab)]
    exact Int.floor_mono hab
  · by_cases hb : 0 ≤ b
    · rw [int_trunc, if_neg ha, int_trunc, if_pos hb]
      exact le_trans (ceil_nonpos_of_nonpos (le_of_not_le ha)) (Int.floor_nonneg.mpr hb)
    · rw [int_trunc, if_neg ha, int_trunc, if_neg hb]
      exact Int.ceil_mono hab

theorem int_trunc_le {q : ℚ} (h : 0 ≤ q) : (int_trunc q : ℚ) ≤ q := by
  rw [int_trunc_of_nonneg h]
  exact Int.floor_le q

/-- Clamped at 0, truncating before or after subtracting an integer is
the same: this is why the source's `int(price * ratio - loan)` realizes
the spec's `truncate(price * ratio) - loan` once `max 0 _` is applied. -/
theorem max_int_trunc_sub (q : ℚ) (n : ℤ) (hq : 0 ≤ q) :
    max 0 (int_trunc (q - (n : ℚ))) = max 0 (int_trunc q - n) := by
  rcases le_or_lt (n : ℚ) q with h | h
  · have h0 : (0 : ℚ) ≤ q - (n : ℚ) := sub_nonneg.mpr h
    rw [int_trunc, if_pos h0, int_trunc, if_pos hq, Int.floor_sub_int]
  · have h1 : int_trunc (q - (n : ℚ)) ≤ 0 := by
      rw [int_trunc]
      split_ifs with h2
      · exact absurd (sub_nonneg.mp h2) (not_le.mpr h)
      · exact ceil_nonpos_of_nonpos (le_of_lt (sub_neg.mpr h))
    have h2 : int_trunc q - n ≤ 0 := by
      rw [int_trunc, if_pos hq]
      have h3 : ⌊q⌋ < n := Int.floor_lt.mpr h
      omega
    rw [max_eq_left h1, max_eq_left h2]

theorem foldl_max_init_le {α : Type} (g : α → ℤ) (l : List α) :
    ∀ a : ℤ, a ≤ l.foldl (fun acc it => max acc (g it)) a := by
  induction l with
  | nil => intro a; exact le_refl a
  | cons b t ih =>
    intro a
    simp only [List.foldl_cons]
    exact le_trans (le_max_left a (g b)) (ih (max a (g b)))

theorem le_foldl_max_of_mem {α : Type} (g : α → ℤ) {l : List α} {x : α}
    (hx : x ∈ l) : ∀ a : ℤ, g x ≤ l.foldl (fun acc it => max acc (g it)) a := by
  induction l with
  | nil => cases hx
  | cons b t ih =>
    intro a
    simp only [List.foldl_cons]
    rcases List.mem_cons.mp hx with h | h
    · subst h
      exact le_trans (le_max_right a (g x)) (foldl_max_init_le g t (max a (g x)))
    · exact ih h (max a (g b))

theorem foldl_max_eq_init_or_mem {α : Type} (g : α → ℤ) (l : List α) :
    ∀ a : ℤ, l.foldl (fun acc it => max acc (g it)) a = a ∨
      ∃ x ∈ l, l.foldl (fun acc it => max acc (g it)) a = g x := by
  induction l with
  | nil => intro a; exact Or.inl rfl
  | cons b t ih =>
    intro a
    simp only [List.foldl_cons]
    rcases ih (max a (g b)) with h | ⟨x, hx, h⟩
    · rcases max_choice a (g b) with he | he
      · exact Or.inl (h.trans he)
      · exact Or.inr ⟨b, List.mem_cons_self b t, h.trans he⟩
    · exact Or.inr ⟨x, List.mem_cons_of_mem b hx, h⟩

/-! Lemmas about the tier classification. -/

theorem tier_eq_SAFE_iff (r : ℚ) : tier r = Tier.SAFE ↔ r < 70 := by
  unfold tier
  split_ifs with h1 h2
  · exact ⟨fun _ => h1, fun _ => rfl⟩
  · exact ⟨fun h => absurd h (by decide), fun h => absurd h h1⟩
  · exact ⟨fun h => absurd h (by decide), fun h => absurd h h1⟩

theorem tier_eq_CAUTION_iff (r : ℚ) :
    tier r = Tier.CAUTION ↔ 70 ≤ r ∧ r ≤ 80 := by
  unfold tier
  split_ifs with h1 h2
  · exact ⟨fun h => absurd h (by decide), fun h => absurd h.1 (not_le.mpr h1)⟩
  · exact ⟨fun _ => ⟨le_of_not_lt h1, h2⟩, fun _ => rfl⟩
  · exact ⟨fun h => absurd h (by decide), fun h => absurd h.2 h2⟩

theorem tier_eq_DANGER_iff (r : ℚ) : tier r = Tier.DANGER ↔ 80 < r := by
  unfold tier
  split_ifs with h1 h2
  · exact ⟨fun h => absurd h (by decide), fun h => absurd (h.trans h1) (by norm_num)⟩
  · exact ⟨fun h => absurd h (by decide), fun h => absurd h2 (not_le.mpr h)⟩
  · exact ⟨fun _ => lt_of_not_le h2, fun _ => rfl⟩

theorem tier_ne_DANGER_of_le {r : ℚ} (h : r ≤ 80) : tier r ≠ Tier.DANGER := by
  intro hd
  exact absurd ((tier_eq_DANGER_iff r).mp hd) (not_lt.mpr h)

/-! Projection lemmas for the two risk calculators (all definitional). -/

theorem app_risk_emp (op : ℤ) (mr : ℚ) (d l : ℤ) :
    (App.calculate_risk op mr d l).2.2 = int_trunc ((op : ℚ) * mr) := rfl

theorem app_risk_percent (op : ℤ) (mr : ℚ) (d l : ℤ) :
    (App.calculate_risk op mr d l).1 =
      (if int_trunc ((op : ℚ) * mr) > 0 then
        (((d + l : ℤ) : ℚ) / ((int_trunc ((op : ℚ) * mr) : ℤ) : ℚ)) * 100
      else 100) := rfl

theorem app_risk_judgment (op : ℤ) (mr : ℚ) (d l : ℤ) :
    (App.calculate_risk op mr d l).2.1 =
      (if (App.calculate_risk op mr d l).1 < 70 then "✅ 안전 (70% 미만)"
       else if (App.calculate_risk op mr d l).1 ≤ 80 then
         "⚠️ 주의 (80% 이하 - 보증보험 필요)"
       else "❌ 위험 (80% 초과 - 깡통전세 가능성 높음)") := rfl

theorem mainpy_risk_emp (op : ℤ) (mr : ℚ) (d l : ℤ) :
    (MainPy.calculate_risk op mr d l).2.2 = int_trunc ((op : ℚ) * mr) := rfl

theorem mainpy_risk_percent (op : ℤ) (mr : ℚ) (d l : ℤ) :
    (MainPy.calculate_risk op mr d l).1 =
      (if int_trunc ((op : ℚ) * mr) = 0 then 100
      else (((d + l : ℤ) : ℚ) / ((int_trunc ((op : ℚ) * mr) : ℤ) : ℚ)) * 100) := rfl

theorem mainpy_risk_judgment (op : ℤ) (mr : ℚ) (d l : ℤ) :
    (MainPy.calculate_risk op mr d l).2.1 =
      (if (MainPy.calculate_risk op mr d l).1 < 70 then "✅ 안전 (70% 미만)"
       else if (MainPy.calculate_risk op mr d l).1 ≤ 80 then
         "⚠️ 주의 (80% 이하 - 보증보험 가입 고려)"
       else "❌ 위험 (80% 초과 - 깡통전세 가능성 높음)") := rfl

theorem tierOfJudgment_app_chain (r : ℚ) :
    tierOfJudgment
      (if r < 70 then "✅ 안전 (70% 미만)"
       else if r ≤ 80 then "⚠️ 주의 (80% 이하 - 보증보험 필요)"
       else "❌ 위험 (80% 초과 - 깡통전세 가능성 높음)") = some (tier r) := by
  unfold tier
  split_ifs with h1 h2
  · rfl
  · rfl
  · rfl

theorem tierOfJudgment_mainpy_chain (r : ℚ) :
    tierOfJudgment
      (if r < 70 then "✅ 안전 (70% 미만)"
       else if r ≤ 80 then "⚠️ 주의 (80% 이하 - 보증보험 가입 고려)"
       else "❌ 위험 (80% 초과 - 깡통전세 가능성 높음)") = some (tier r) := by
  unfold tier
  split_ifs with h1 h2
  · rfl
  · rfl
  · rfl

/-- A positive clamped ceiling keeps the risk ratio at or below the
ratio constant it was derived from. -/
theorem ceiling_ratio_bound {emp loan s : ℤ} {c : ℚ} (hemp : 0 < emp)
    (hs : 0 < s)
    (hsval : s = max 0 (int_trunc ((emp : ℚ) * c - (loan : ℚ)))) :
    ((s + loan : ℤ) : ℚ) / (emp : ℚ) * 100 ≤ c * 100 := by
  have hq : s = int_trunc ((emp : ℚ) * c - (loan : ℚ)) := by
    rcases max_choice 0 (int_trunc ((emp : ℚ) * c - (loan : ℚ))) with h | h
    · rw [hsval] at hs
      rw [h] at hs
      exact absurd hs (lt_irrefl 0)
    · rw [hsval, h]
  have hq0 : (0 : ℚ) ≤ (emp : ℚ) * c - (loan : ℚ) := by
    by_contra hneg
    push_neg at hneg
    have hle : int_trunc ((emp : ℚ) * c - (loan : ℚ)) ≤ 0 := by
      rw [int_trunc, if_neg (not_le.mpr hneg)]
      exact ceil_nonpos_of_nonpos (le_of_lt hneg)
    omega
  have hfl : (s : ℚ) ≤ (emp : ℚ) * c - (loan : ℚ) := by
    rw [hq]
    exact int_trunc_le hq0
  have hsum : ((s + loan : ℤ) : ℚ) ≤ (emp : ℚ) * c := by
    push_cast
    linarith
  have hepos : (0 : ℚ) < (emp : ℚ) := by exact_mod_cast hemp
  have hdiv : ((s + loan : ℤ) : ℚ) / (emp : ℚ) ≤ c := by
    rw [div_le_iff₀ hepos]
    calc ((s + loan : ℤ) : ℚ) ≤ (emp : ℚ) * c := hsum
    _ = c * (emp : ℚ) := mul_comm _ _
  exact mul_le_mul_of_nonneg_right hdiv (by norm_num)

/-! The claims. -/

/-- C1: for every riskPercent value computed by the risk calculator, the
judgment string decodes to `tier riskPercent`, and the tier is
boundary-inclusive exactly as specified: SAFE iff riskPercent < 70,
CAUTION iff 70 ≤ riskPercent ≤ 80 (so riskPercent exactly 70 and
exactly 80 are CAUTION, neither SAFE nor DANGER), and DANGER iff
riskPercent > 80. -/
theorem C1_judgment_tier_boundaries (op : ℤ) (mr : ℚ) (d l : ℤ) :
    tierOfJudgment ((App.calculate_risk op mr d l).2.1)
      = some (tier ((App.calculate_risk op mr d l).1)) ∧
    (tier ((App.calculate_risk op mr d l).1) = Tier.SAFE ↔
      (App.calculate_risk op mr d l).1 < 70) ∧
    (tier ((App.calculate_risk op mr d l).1) = Tier.CAUTION ↔
      70 ≤ (App.calculate_risk op mr d l).1 ∧
        (App.calculate_risk op mr d l).1 ≤ 80) ∧
    (tier ((App.calculate_risk op mr d l).1) = Tier.DANGER ↔
      80 < (App.calculate_risk op mr d l).1) := by
  refine ⟨?_, tier_eq_SAFE_iff _, tier_eq_CAUTION_iff _, tier_eq_DANGER_iff _⟩
  rw [app_risk_judgment]
  exact tierOfJudgment_app_chain _

/-- C2: for non-negative inputs with a positive market ratio,
calculate_risk returns the truncation toward zero of
officialPrice × marketRatio as the estimated market price (hence it is
non-negative), the quotient formula when that price is positive, and
exactly 100 with a DANGER judgment when it is not. -/
theorem C2_risk_formula (op : ℤ) (mr : ℚ) (d l : ℤ)
    (hop : 0 ≤ op) (hmr : 0 < mr) (hd : 0 ≤ d) (hl : 0 ≤ l) :
    (App.calculate_risk op mr d l).2.2 = int_trunc ((op : ℚ) * mr) ∧
    0 ≤ (App.calculate_risk op mr d l).2.2 ∧
    (0 < (App.calculate_risk op mr d l).2.2 →
      (App.calculate_risk op mr d l).1 =
        ((d + l : ℤ) : ℚ) / ((App.calculate_risk op mr d l).2.2 : ℚ) * 100) ∧
    ((App.calculate_risk op mr d l).2.2 ≤ 0 →
      (App.calculate_risk op mr d l).1 = 100 ∧
      tierOfJudgment ((App.calculate_risk op mr d l).2.1) = some Tier.DANGER) := by
  have hprod : (0 : ℚ) ≤ (op : ℚ) * mr :=
    mul_nonneg (by exact_mod_cast hop) (le_of_lt hmr)
  have hemp : 0 ≤ int_trunc ((op : ℚ) * mr) := int_trunc_nonneg hprod
  refine ⟨app_risk_emp op mr d l, ?_, ?_, ?_⟩
  · rw [app_risk_emp]
    exact hemp
  · intro hpos
    rw [app_risk_emp] at hpos
    rw [app_risk_percent, if_pos hpos, app_risk_emp]
  · intro hle
    rw [app_risk_emp] at hle
    have hrisk : (App.calculate_risk op mr d l).1 = 100 := by
      rw [app_risk_percent, if_neg (by omega)]
    refine ⟨hrisk, ?_⟩
    rw [app_risk_judgment, hrisk, tierOfJudgment_app_chain]
    norm_num [tier]

/-- C2 instantiated at officialPrice 10, marketRatio 7/5, deposit 3,
loan 4 (estimated market price 14, risk percent 50). -/
theorem C2_risk_formula_witness :
    (App.calculate_risk 10 (7 / 5) 3 4).2.2 = int_trunc (((10 : ℤ) : ℚ) * (7 / 5)) ∧
    0 ≤ (App.calculate_risk 10 (7 / 5) 3 4).2.2 ∧
    (0 < (App.calculate_risk 10 (7 / 5) 3 4).2.2 →
      (App.calculate_risk 10 (7 / 5) 3 4).1 =
        ((3 + 4 : ℤ) : ℚ) / ((App.calculate_risk 10 (7 / 5) 3 4).2.2 : ℚ) * 100) ∧
    ((App.calculate_risk 10 (7 / 5) 3 4).2.2 ≤ 0 →
      (App.calculate_risk 10 (7 / 5) 3 4).1 = 100 ∧
      tierOfJudgment ((App.calculate_risk 10 (7 / 5) 3 4).2.1) = some Tier.DANGER) := by
  exact C2_risk_formula 10 (7 / 5) 3 4 (by norm_num) (by norm_num)
    (by norm_num) (by norm_num)

/-- C4: for non-negative market price and loan, the safe-ceiling
calculator returns max(0, truncate(price × 7/10) − loan) and
max(0, truncate(price × 8/10) − loan); the ratios are the fixed
constants of the source, not the configurable market ratio. -/
theorem C4_safe_ceilings (emp loan : ℤ) (h1 : 0 ≤ emp) (h2 : 0 ≤ loan) :
    App.calculate_safe_jeonse emp loan =
      (max 0 (int_trunc ((emp : ℚ) * (7 / 10)) - loan),
       max 0 (int_trunc ((emp : ℚ) * (8 / 10)) - loan)) := by
  have he : (0 : ℚ) ≤ (emp : ℚ) := by exact_mod_cast h1
  have hq7 : (0 : ℚ) ≤ (emp : ℚ) * (7 / 10) := mul_nonneg he (by norm_num)
  have hq8 : (0 : ℚ) ≤ (emp : ℚ) * (8 / 10) := mul_nonneg he (by norm_num)
  simp only [App.calculate_safe_jeonse]
  rw [max_int_trunc_sub _ _ hq7, max_int_trunc_sub _ _ hq8]

/-- C4 instantiated at estimated market price 1000 and loan 100
(ceilings 600 and 700). -/
theorem C4_safe_ceilings_witness :
    App.calculate_safe_jeonse 1000 100 =
      (max 0 (int_trunc (((1000 : ℤ) : ℚ) * (7 / 10)) - 100),
       max 0 (int_trunc (((1000 : ℤ) : ℚ) * (8 / 10)) - 100)) := by
  exact C4_safe_ceilings 1000 100 (by norm_num) (by norm_num)

/-- C8: for non-negative inputs both ceilings are non-negative and the
safe ceiling never exceeds the warning ceiling. -/
theorem C8_ceilings_nonneg_ordered (emp loan : ℤ) (h1 : 0 ≤ emp) (h2 : 0 ≤ loan) :
    0 ≤ (App.calculate_safe_jeonse emp loan).1 ∧
    0 ≤ (App.calculate_safe_jeonse emp loan).2 ∧
    (App.calculate_safe_jeonse emp loan).1 ≤ (App.calculate_safe_jeonse emp loan).2 := by
  have he : (0 : ℚ) ≤ (emp : ℚ) := by exact_mod_cast h1
  have hmul : (emp : ℚ) * (7 / 10) - (loan : ℚ) ≤ (emp : ℚ) * (8 / 10) - (loan : ℚ) := by
    have h78 : (emp : ℚ) * (7 / 10) ≤ (emp : ℚ) * (8 / 10) :=
      mul_le_mul_of_nonneg_left (by norm_num) he
    linarith
  refine ⟨le_max_left 0 _, le_max_left 0 _, ?_⟩
  exact max_le_max (le_refl 0) (int_trunc_mono hmul)

/-- C8 instantiated at estimated market price 1000 and loan 100. -/
theorem C8_ceilings_nonneg_ordered_witness :
    0 ≤ (App.calculate_safe_jeonse 1000 100).1 ∧
    0 ≤ (App.calculate_safe_jeonse 1000 100).2 ∧
    (App.calculate_safe_jeonse 1000 100).1 ≤ (App.calculate_safe_jeonse 1000 100).2 := by
  exact C8_ceilings_nonneg_ordered 1000 100 (by norm_num) (by norm_num)

/-- C9: on the precondition domain (non-negative price, deposit, loan
and a positive ratio) the two implementations of calculate_risk agree
on riskPercent, on the estimated market price, and on the decoded
judgment tier (their judgment strings differ only in the CAUTION
label's wording). -/
theorem C9_app_mainpy_equivalent (op : ℤ) (mr : ℚ) (d l : ℤ)
    (hop : 0 ≤ op) (hmr : 0 < mr) (hd : 0 ≤ d) (hl : 0 ≤ l) :
    (App.calculate_risk op mr d l).1 = (MainPy.calculate_risk op mr d l).1 ∧
    (App.calculate_risk op mr d l).2.2 = (MainPy.calculate_risk op mr d l).2.2 ∧
    tierOfJudgment ((App.calculate_risk op mr d l).2.1) =
      tierOfJudgment ((MainPy.calculate_risk op mr d l).2.1) ∧
    (tierOfJudgment ((App.calculate_risk op mr d l).2.1)).isSome = true := by
  have hprod : (0 : ℚ) ≤ (op : ℚ) * mr :=
    mul_nonneg (by exact_mod_cast hop) (le_of_lt hmr)
  have hemp : 0 ≤ int_trunc ((op : ℚ) * mr) := int_trunc_nonneg hprod
  have hrisk : (App.calculate_risk op mr d l).1 = (MainPy.calculate_risk op mr d l).1 := by
    rw [app_risk_percent, mainpy_risk_percent]
    by_cases hz : int_trunc ((op : ℚ) * mr) = 0
    · rw [if_neg (by omega), if_pos hz]
    · rw [if_pos (by omega), if_neg hz]
  refine ⟨hrisk, rfl, ?_, ?_⟩
  · rw [app_risk_judgment, mainpy_risk_judgment, ← hrisk,
      tierOfJudgment_app_chain, tierOfJudgment_mainpy_chain]
  · rw [app_risk_judgment, tierOfJudgment_app_chain]
    rfl

/-- C9 instantiated at officialPrice 10, marketRatio 7/5, deposit 3,
loan 4. -/
theorem C9_app_mainpy_equivalent_witness :
    (App.calculate_risk 10 (7 / 5) 3 4).1 = (MainPy.calculate_risk 10 (7 / 5) 3 4).1 ∧
    (App.calculate_risk 10 (7 / 5) 3 4).2.2 = (MainPy.calculate_risk 10 (7 / 5) 3 4).2.2 ∧
    tierOfJudgment ((App.calculate_risk 10 (7 / 5) 3 4).2.1) =
      tierOfJudgment ((MainPy.calculate_risk 10 (7 / 5) 3 4).2.1) ∧
    (tierOfJudgment ((App.calculate_risk 10 (7 / 5) 3 4).2.1)).isSome = true := by
  exact C9_app_mainpy_equivalent 10 (7 / 5) 3 4 (by norm_num) (by norm_num)
    (by norm_num) (by norm_num)

/-- C10: with a positive estimated market price, a positive safe
ceiling used as the deposit keeps the risk ratio at or below 70 (so its
tier is not DANGER), and a positive warning ceiling keeps it at or
below 80. -/
theorem C10_ceilings_meet_thresholds (emp loan : ℤ)
    (hemp : 0 < emp) (hl : 0 ≤ loan) :
    (0 < (App.calculate_safe_jeonse emp loan).1 →
      (((App.calculate_safe_jeonse emp loan).1 + loan : ℤ) : ℚ) / (emp : ℚ) * 100 ≤ 70 ∧
      tier ((((App.calculate_safe_jeonse emp loan).1 + loan : ℤ) : ℚ) / (emp : ℚ) * 100) ≠
        Tier.DANGER) ∧
    (0 < (App.calculate_safe_jeonse emp loan).2 →
      (((App.calculate_safe_jeonse emp loan).2 + loan : ℤ) : ℚ) / (emp : ℚ) * 100 ≤ 80) := by
  constructor
  · intro hs
    have hb := ceiling_ratio_bound hemp hs
      (rfl : (App.calculate_safe_jeonse emp loan).1 =
        max 0 (int_trunc ((emp : ℚ) * (7 / 10) - (loan : ℚ))))
    have h70 : (((App.calculate_safe_jeonse emp loan).1 + loan : ℤ) : ℚ) /
        (emp : ℚ) * 100 ≤ 70 := hb.trans_eq (by norm_num)
    exact ⟨h70, tier_ne_DANGER_of_le (h70.trans (by norm_num))⟩
  · intro hs
    have hb := ceiling_ratio_bound hemp hs
      (rfl : (App.calculate_safe_jeonse emp loan).2 =
        max 0 (int_trunc ((emp : ℚ) * (8 / 10) - (loan : ℚ))))
    exact hb.trans_eq (by norm_num)

/-- C10 instantiated at estimated market price 1000 and loan 0
(ceilings 700 and 800, risk ratios exactly 70 and 80). -/
theorem C10_ceilings_meet_thresholds_witness :
    (0 < (App.calculate_safe_jeonse 1000 0).1 →
      (((App.calculate_safe_jeonse 1000 0).1 + 0 : ℤ) : ℚ) / ((1000 : ℤ) : ℚ) * 100 ≤ 70 ∧
      tier ((((App.calculate_safe_jeonse 1000 0).1 + 0 : ℤ) : ℚ) / ((1000 : ℤ) : ℚ) * 100) ≠
        Tier.DANGER) ∧
    (0 < (App.calculate_safe_jeonse 1000 0).2 →
      (((App.calculate_safe_jeonse 1000 0).2 + 0 : ℤ) : ℚ) / ((1000 : ℤ) : ℚ) * 100 ≤ 80) := by
  exact C10_ceilings_meet_thresholds 1000 0 (by norm_num) (by norm_num)

/-- C3: on a successful fetch whose record list is non-empty, the
representative price is the maximum over all rows of the assessed price
(an absent price field contributing 0, the row never excluded), while
the representative name and area come from the first row in
provider-returned order. -/
theorem C3_aggregator_max_price_first_fields (response : PriceHttpResponse)
    (data : PriceBody) (ahp : PriceAhp) (item0 : PriceItem) (rest : List PriceItem)
    (hs : response.status_code = 200) (hj : response.json = some data)
    (ha : data.apartHousingPrices = some ahp)
    (hf : ahp.field = some (item0 :: rest)) :
    (App.get_latest_official_price (some response)).1 =
      item0.aphusNm.getD "주택명 미상" ∧
    (App.get_latest_official_price (some response)).2.2 = item0.prvuseAr.getD 0 ∧
    (∀ it ∈ item0 :: rest,
      it.pblntfPc.getD 0 ≤ (App.get_latest_official_price (some response)).2.1) ∧
    (∃ it ∈ item0 :: rest,
      (App.get_latest_official_price (some response)).2.1 = it.pblntfPc.getD 0) := by
  have hitems : App.itemsOf data = item0 :: rest := by
    simp [App.itemsOf, ha, hf]
  have heq : App.get_latest_official_price (some response) =
      (item0.aphusNm.getD "주택명 미상",
       List.foldl (fun acc it => max acc (it.pblntfPc.getD 0))
         (item0.pblntfPc.getD 0) rest,
       item0.prvuseAr.getD 0) := by
    simp [App.get_latest_official_price, hs, hj, hitems]
  refine ⟨by rw [heq], by rw [heq], ?_, ?_⟩
  · intro it hit
    rw [heq]
    rcases List.mem_cons.mp hit with h | h
    · subst h
      exact foldl_max_init_le (fun x => x.pblntfPc.getD 0) rest _
    · exact le_foldl_max_of_mem (fun x => x.pblntfPc.getD 0) h _
  · rw [heq]
    rcases foldl_max_eq_init_or_mem (fun x => x.pblntfPc.getD 0) rest
      (item0.pblntfPc.getD 0) with h | ⟨x, hx, h⟩
    · exact ⟨item0, List.mem_cons_self item0 rest, h⟩
    · exact ⟨x, List.mem_cons_of_mem item0 hx, h⟩

/-- C3 instantiated at the spec's example records, price 100 / area 50 /
name "A" then price 500 / area 80 / name "B": the result is name "A",
price 500, area 50. -/
theorem C3_aggregator_witness :
    (App.get_latest_official_price (some ⟨200, some ⟨some ⟨some
      [⟨some 100, some 50, some "A"⟩, ⟨some 500, some 80, some "B"⟩]⟩⟩⟩)).1 = "A" ∧
    (App.get_latest_official_price (some ⟨200, some ⟨some ⟨some
      [⟨some 100, some 50, some "A"⟩, ⟨some 500, some 80, some "B"⟩]⟩⟩⟩)).2.1 = 500 ∧
    (App.get_latest_official_price (some ⟨200, some ⟨some ⟨some
      [⟨some 100, some 50, some "A"⟩, ⟨some 500, some 80, some "B"⟩]⟩⟩⟩)).2.2 = 50 ∧
    (∀ it ∈ [(⟨some 100, some 50, some "A"⟩ : PriceItem),
        ⟨some 500, some 80, some "B"⟩],
      it.pblntfPc.getD 0 ≤ (App.get_latest_official_price (some ⟨200, some ⟨some ⟨some
        [⟨some 100, some 50, some "A"⟩, ⟨some 500, some 80, some "B"⟩]⟩⟩⟩)).2.1) := by
  have h := C3_aggregator_max_price_first_fields
    ⟨200, some ⟨some ⟨some [⟨some 100, some 50, some "A"⟩,
      ⟨some 500, some 80, some "B"⟩]⟩⟩⟩
    ⟨some ⟨some [⟨some 100, some 50, some "A"⟩, ⟨some 500, some 80, some "B"⟩]⟩⟩
    ⟨some [⟨some 100, some 50, some "A"⟩, ⟨some 500, some 80, some "B"⟩]⟩
    ⟨some 100, some 50, some "A"⟩ [⟨some 500, some 80, some "B"⟩]
    rfl rfl rfl rfl
  exact ⟨by rfl, by rfl, by rfl, h.2.2.1⟩

/-- C5: every failure path of the aggregator yields a sentinel with
price 0 and area 0 — a failed HTTP status or an absent/empty record
list yields the no-data sentinel, an exception during the call or the
parse (the `none` cases) yields the communication-error sentinel — and
the function is total, so no exception escapes. -/
theorem C5_failure_sentinels :
    App.get_latest_official_price none = ("통신 오류", 0, 0) ∧
    (∀ response : PriceHttpResponse, response.status_code ≠ 200 →
      App.get_latest_official_price (some response) = ("데이터 없음", 0, 0)) ∧
    (∀ response : PriceHttpResponse, response.status_code = 200 →
      response.json = none →
      App.get_latest_official_price (some response) = ("통신 오류", 0, 0)) ∧
    (∀ (response : PriceHttpResponse) (data : PriceBody),
      response.json = some data → App.itemsOf data = [] →
      App.get_latest_official_price (some response) = ("데이터 없음", 0, 0)) ∧
    (∀ resp : Option PriceHttpResponse,
      ((App.get_latest_official_price resp).2.1 = 0 ∧
       (App.get_latest_official_price resp).2.2 = 0) ∨
      ∃ (response : PriceHttpResponse) (data : PriceBody) (item0 : PriceItem)
        (rest : List PriceItem), resp = some response ∧
        response.status_code = 200 ∧ response.json = some data ∧
        App.itemsOf data = item0 :: rest) := by
  refine ⟨rfl, ?_, ?_, ?_, ?_⟩
  · intro response hne
    simp [App.get_latest_official_price, hne]
  · intro response h200 hnone
    simp [App.get_latest_official_price, h200, hnone]
  · intro response data hj hempty
    by_cases h200 : response.status_code = 200
    · simp [App.get_latest_official_price, h200, hj, hempty]
    · simp [App.get_latest_official_price, h200]
  · intro resp
    rcases resp with _ | response
    · exact Or.inl ⟨rfl, rfl⟩
    · by_cases h200 : response.status_code = 200
      · rcases hj : response.json with _ | data
        · exact Or.inl (by simp [App.get_latest_official_price, h200, hj])
        · rcases hitems : App.itemsOf data with _ | ⟨item0, rest⟩
          · exact Or.inl (by simp [App.get_latest_official_price, h200, hj, hitems])
          · exact Or.inr ⟨response, data, item0, rest, rfl, h200, hj, hitems⟩
      · exact Or.inl (by simp [App.get_latest_official_price, h200])

/-- C6: the parcel resolver answers `some pnu` exactly when the
response parsed, reported status OK and carried a non-empty item list
whose first item's identifier field is pnu; every other outcome is
`none`. -/
theorem C6_resolver_first_item_iff (resp : Option SearchData) (pnu : String) :
    App.get_pnu_code resp = some pnu ↔
      ∃ (data : SearchData) (r : SearchRespField) (res : SearchResult)
        (item : SearchItem) (rest : List SearchItem),
        resp = some data ∧ data.response = some r ∧ r.status = some "OK" ∧
        r.result = some res ∧ res.items = some (item :: rest) ∧
        item.id = some pnu := by
  constructor
  · intro h
    rcases resp with _ | data
    · simp [App.get_pnu_code] at h
    · simp only [App.get_pnu_code] at h
      rcases hresp : data.response with _ | r
      · simp [hresp] at h
      · simp only [hresp] at h
        by_cases hst : r.status = some "OK"
        · rw [if_pos hst] at h
          rcases hres : r.result with _ | res
          · simp [hres] at h
          · simp only [hres] at h
            rcases hitems : res.items with _ | items
            · simp [hitems] at h
            · simp only [hitems] at h
              rcases items with _ | ⟨item, rest⟩
              · simp at h
              · exact ⟨data, r, res, item, rest, rfl, hresp, hst, hres, hitems, h⟩
        · rw [if_neg hst] at h
          simp at h
  · rintro ⟨data, r, res, item, rest, rfl, h1, h2, h3, h4, h5⟩
    simp [App.get_pnu_code, h1, h2, h3, h4, h5]

/-- C7 counterexample: for an amount between 1 and 9999 the formatter
returns " 원" with its leading space kept (the strip happens before
" 원" is appended), not the bare "원" the claim states. -/
theorem C7_small_amount_counterexample :
    App.format_korean_money 9999 = " 원" ∧ App.format_korean_money 9999 ≠ "원" := by
  constructor
  · decide
  · decide

/-- C7 amended: the formatter returns "0 원" for every amount ≤ 0,
renders 150000000 as "1억 5,000만 원", and for every amount between 1
and 9999 (eok and man both zero) returns " 원" — the empty composition
stripped, with " 원" appended afterwards, so the leading space remains
(not the bare "원"). -/
theorem C7_formatter_amended :
    (∀ amount : ℤ, amount ≤ 0 → App.format_korean_money amount = "0 원") ∧
    App.format_korean_money 150000000 = "1억 5,000만 원" ∧
    App.format_korean_money 0 = "0 원" ∧
    App.format_korean_money (-5) = "0 원" ∧
    (∀ amount : ℤ, 1 ≤ amount → amount ≤ 9999 →
      App.format_korean_money amount = " 원") := by
  refine ⟨?_, by decide, by decide, by decide, ?_⟩
  · intro amount h
    simp only [App.format_korean_money, if_pos h]
  · intro amount h1 h2
    have hpos : ¬ amount ≤ 0 := by omega
    have ha1 : amount.toNat / 100000000 = 0 := Nat.div_eq_of_lt (by omega)
    have ha2 : amount.toNat % 100000000 / 10000 = 0 := by
      rw [Nat.mod_eq_of_lt (by omega)]
      exact Nat.div_eq_of_lt (by omega)
    simp only [App.format_korean_money, if_neg hpos]
    rw [ha1, ha2]
    decide

end RealEstate
